import Mathlib

/- Shallow embedding of the react-native-web-adapter MapView component
   (src/unnamed/part_000, which carries two near-duplicate variants of the
   same adapter) together with the zoom/delta conversion utilities it
   imports.  JS numbers are modelled as rationals; `undefined`/`null` are
   modelled with `Option`; NaN propagation, where it matters, is modelled
   with `Option` as well (`none` = NaN). -/

namespace MapsAdapter

/-- Web-widget point literal (`google.maps.LatLngLiteral`): `{lat, lng}`. -/
structure LatLng where
  lat : ℚ
  lng : ℚ
  deriving DecidableEq, Repr

/-- Mobile-style viewport descriptor (`react-native-maps` `Region`). -/
structure Region where
  latitude : ℚ
  longitude : ℚ
  latitudeDelta : ℚ
  longitudeDelta : ℚ
  deriving DecidableEq, Repr

/-- Mobile-style coordinate pair used inside `Camera.center`. -/
structure Coordinate where
  latitude : ℚ
  longitude : ℚ
  deriving DecidableEq, Repr

/-- Imperative camera descriptor (`react-native-maps` `Camera`). -/
structure Camera where
  center : Coordinate
  pitch : ℚ
  altitude : ℚ
  heading : ℚ
  zoom : ℕ
  deriving DecidableEq, Repr

/-- Live state of the underlying web widget (`google.maps.Map`) as observed
through `getCenter`/`getZoom`/`getTilt`/`getHeading`. -/
structure WidgetState where
  center : LatLng
  zoom : ℕ
  tilt : ℚ
  heading : ℚ
  deriving DecidableEq, Repr

/-- Modelled from the spec: `calcZoom` (the `deltaToZoom` direction of the
Zoom/Delta Converter) lives in the missing `./utils` module.  Per the spec it
is the base-2 logarithm of (360 / longitudeDelta) rounded to the nearest
integer (half up, as `Math.round`) and clamped to the supported zoom range
[0, 21]; a zero or negative delta is treated as maximum zoom.  The
round-and-clamp is computed without real logarithms: the result is the
largest `z ≤ 21` with `2 ^ (2 z - 1) ≤ (360 / delta) ^ 2`, i.e. with
`z - 1/2 ≤ log2 (360 / delta)`, or `0` when no such `z` exists. -/
def calcZoom (longitudeDelta : ℚ) : ℕ :=
  if longitudeDelta ≤ 0 then 21
  else
    List.foldl
      (fun acc z =>
        if (2 : ℚ) ^ (2 * z) ≤ 2 * (360 / longitudeDelta) ^ 2 then z else acc)
      0 (List.range 22)

/-- Latitude/longitude span pair returned by `zoomReverseDelta`. -/
structure Deltas where
  latitudeDelta : ℚ
  longitudeDelta : ℚ
  deriving DecidableEq, Repr

/-- Modelled from the spec: `zoomReverseDelta` (the `zoomToDelta` direction of
the Zoom/Delta Converter) lives in the missing `./utils` module.  Per the
spec: `longitudeDelta = 360 / 2 ^ zoom` and
`latitudeDelta = longitudeDelta * deltaRatio`. -/
def zoomReverseDelta (zoom : ℕ) (deltaRatio : ℚ) : Deltas :=
  { latitudeDelta := 360 / (2 : ℚ) ^ zoom * deltaRatio,
    longitudeDelta := 360 / (2 : ℚ) ^ zoom }

/-- React `useState` pair actually rendered into the widget: the `center` and
`zoom` of the Viewport State Holder. -/
structure ViewState where
  center : LatLng
  zoom : ℕ
  deriving DecidableEq, Repr

/-- The first variant's `useUpdateEffect` on `[region]` (lines 124–128):
`if (!region) return; setCenter({lat: region.latitude, lng: region.longitude});
setZoom(calcZoom(region.longitudeDelta))`. -/
def applyExternalRegion_v1 (region : Option Region) (s : ViewState) : ViewState :=
  match region with
  | none => s
  | some region =>
      { center := { lat := region.latitude, lng := region.longitude },
        zoom := calcZoom region.longitudeDelta }

/-- The second variant's `useUpdateEffect` on `[region]` (lines 338–344):
`setCenter({lat: region!.latitude, lng: region!.longitude});
setZoom(calcZoom(region!.longitude))` — note the zoom is recomputed from
`region.longitude`, not `region.longitudeDelta`. -/
def applyExternalRegion_v2 (region : Region) (_s : ViewState) : ViewState :=
  { center := { lat := region.latitude, lng := region.longitude },
    zoom := calcZoom region.longitude }

set_option maxHeartbeats 2000000

/-- C6: round-trip law of the Zoom/Delta Converter — for every zoom level `z`
in the supported integer range [0, 21] and every delta ratio `r > 0`,
converting `z` to deltas and back is the identity:
`calcZoom (zoomReverseDelta z r).longitudeDelta = z`. -/
theorem c6_zoom_delta_roundtrip (z : ℕ) (r : ℚ) (hz : z ≤ 21) (_hr : 0 < r) :
    calcZoom (zoomReverseDelta z r).longitudeDelta = z := by
  have hlng : (zoomReverseDelta z r).longitudeDelta = 360 / (2 : ℚ) ^ z := rfl
  rw [hlng]
  interval_cases z <;> norm_num [calcZoom, List.range_succ]

/-- Witness for C6 at `z = 12`, `r = 1`. -/
theorem c6_zoom_delta_roundtrip_witness :
    (12 ≤ 21 ∧ (0 : ℚ) < 1) ∧
      calcZoom (zoomReverseDelta 12 1).longitudeDelta = 12 :=
  ⟨⟨by decide, by norm_num⟩, c6_zoom_delta_roundtrip 12 1 (by decide) (by norm_num)⟩

/-- C1 (code bug witness): at the region
`{latitude 10, longitude 20, latitudeDelta 1/10, longitudeDelta 1/10}` the
second variant's update effect stores `calcZoom region.longitude = calcZoom 20
= 4`, whereas `calcZoom region.longitudeDelta = calcZoom (1/10) = 12` (which
is what the first variant stores): the two variants disagree and the second
does not set `zoom` to `calcZoom (region.longitudeDelta)`. -/
theorem c1_update_effect_bug :
    (applyExternalRegion_v2
        { latitude := 10, longitude := 20,
          latitudeDelta := 1 / 10, longitudeDelta := 1 / 10 }
        { center := { lat := 0, lng := 0 }, zoom := 0 }).zoom = 4
  ∧ calcZoom ((1 : ℚ) / 10) = 12
  ∧ (applyExternalRegion_v1
        (some { latitude := 10, longitude := 20,
                latitudeDelta := 1 / 10, longitudeDelta := 1 / 10 })
        { center := { lat := 0, lng := 0 }, zoom := 0 }).zoom = 12
  ∧ (applyExternalRegion_v1
        (some { latitude := 10, longitude := 20,
                latitudeDelta := 1 / 10, longitudeDelta := 1 / 10 })
        { center := { lat := 0, lng := 0 }, zoom := 0 }).center
      = { lat := 10, lng := 20 } := by
  refine ⟨?_, ?_, ?_, rfl⟩
  · show calcZoom 20 = 4
    norm_num [calcZoom, List.range_succ]
  · norm_num [calcZoom, List.range_succ]
  · show calcZoom (1 / 10) = 12
    norm_num [calcZoom, List.range_succ]

/-- The first variant's `getCurrentRegion` (lines 139–149): read the widget's
live zoom and center through the `instance` ref, convert the zoom back to
deltas with the cached delta ratio, defaulting every unavailable field to 0.
The `zoom == null` loose check is the `none` case of the match (it also
catches the `undefined` produced before load). -/
def getCurrentRegion (inst : Option WidgetState) (deltaRatio : ℚ) : Region :=
  let zoom : Option ℕ := inst.map WidgetState.zoom
  let center : Option LatLng := inst.map WidgetState.center
  let delta : Option Deltas :=
    match zoom with
    | none => none
    | some z => some (zoomReverseDelta z deltaRatio)
  { latitude := (center.map LatLng.lat).getD 0,
    latitudeDelta := (delta.map Deltas.latitudeDelta).getD 0,
    longitude := (center.map LatLng.lng).getD 0,
    longitudeDelta := (delta.map Deltas.longitudeDelta).getD 0 }

/-- Outward callback invocations of the Event Mediator, in invocation order.
The `Bool` on the region callbacks is the `isGesture` marker. -/
inductive OutCall where
  | mapReady : OutCall
  | regionChange : Region → Bool → OutCall
  | regionChangeComplete : Region → Bool → OutCall
  deriving DecidableEq, Repr

/-- The shared `onChangeComplete` helper (lines 151–155 / 555–559): one
`getCurrentRegion()` read, passed first to `onRegionChange` and then to
`onRegionChangeComplete`, both with `{isGesture: true}`. -/
def onChangeComplete (inst : Option WidgetState) (deltaRatio : ℚ) : List OutCall :=
  let _region := getCurrentRegion inst deltaRatio
  [OutCall.regionChange _region true, OutCall.regionChangeComplete _region true]

/-- Mutable refs of the Event Mediator: the `instance` ref recorded by
`onLoad` and the one-shot `hasIdleTriggerd` flag (source spelling). -/
structure MediatorState where
  inst : Option WidgetState
  hasIdleTriggerd : Bool
  deriving DecidableEq, Repr

/-- State of the mediator at construction: no widget instance recorded, first
idle not yet swallowed. -/
def initMediator : MediatorState := { inst := none, hasIdleTriggerd := false }

/-- Events delivered by the underlying widget to the mediator's handlers. -/
inductive MapEvent where
  | load : WidgetState → MapEvent
  | zoomChanged : MapEvent
  | idle : MapEvent
  | drag : MapEvent
  deriving DecidableEq, Repr

/-- Whether an event is a `load` event. -/
def MapEvent.isLoad : MapEvent → Bool
  | MapEvent.load _ => true
  | _ => false

/-- Whether an event is an `idle` event. -/
def MapEvent.isIdle : MapEvent → Bool
  | MapEvent.idle => true
  | _ => false

/-- One step of the Event Mediator: `onLoad` (records the instance and fires
`onMapReady`), `onZoomChanged` (ignored while the instance ref is null),
`onIdle` (the first idle only sets the `hasIdleTriggerd` flag), and `onDrag`
(reports `onRegionChange` only).  Returns the updated refs and the outward
callback invocations of the step, in order. -/
def stepMediator (deltaRatio : ℚ) (s : MediatorState) :
    MapEvent → MediatorState × List OutCall
  | MapEvent.load w => ({ s with inst := some w }, [OutCall.mapReady])
  | MapEvent.zoomChanged =>
      match s.inst with
      | none => (s, [])
      | some _ => (s, onChangeComplete s.inst deltaRatio)
  | MapEvent.idle =>
      if s.hasIdleTriggerd then (s, onChangeComplete s.inst deltaRatio)
      else ({ s with hasIdleTriggerd := true }, [])
  | MapEvent.drag =>
      (s, [OutCall.regionChange (getCurrentRegion s.inst deltaRatio) true])

/-- Run of the mediator over an event trace, yielding the outward callback
invocations produced by each event. -/
def runMediator (deltaRatio : ℚ) (s : MediatorState) :
    List MapEvent → List (List OutCall)
  | [] => []
  | e :: es =>
      (stepMediator deltaRatio s e).2 ::
        runMediator deltaRatio (stepMediator deltaRatio s e).1 es

/-- Concrete widget state used by witnesses. -/
def w0 : WidgetState :=
  { center := { lat := 0, lng := 0 }, zoom := 3, tilt := 0, heading := 0 }

/-- Whether a trace contains an `idle` event. -/
def idleSeen (es : List MapEvent) : Bool := es.any MapEvent.isIdle

/-- Whether a trace contains a `load` event. -/
def loadSeen (es : List MapEvent) : Bool := es.any MapEvent.isLoad

lemma stepMediator_fst_hasIdleTriggerd (dr : ℚ) (s : MediatorState) (e : MapEvent) :
    (stepMediator dr s e).1.hasIdleTriggerd = (s.hasIdleTriggerd || e.isIdle) := by
  cases e with
  | load w => simp [stepMediator, MapEvent.isIdle]
  | zoomChanged => cases hs : s.inst <;> simp [stepMediator, hs, MapEvent.isIdle]
  | idle =>
      by_cases h : s.hasIdleTriggerd = true <;>
        simp [stepMediator, h, MapEvent.isIdle]
  | drag => simp [stepMediator, MapEvent.isIdle]

lemma stepMediator_fst_instSome (dr : ℚ) (s : MediatorState) (e : MapEvent) :
    (stepMediator dr s e).1.inst.isSome = (s.inst.isSome || e.isLoad) := by
  cases e with
  | load w => simp [stepMediator, MapEvent.isLoad]
  | zoomChanged => cases hs : s.inst <;> simp [stepMediator, hs, MapEvent.isLoad]
  | idle =>
      by_cases h : s.hasIdleTriggerd = true <;>
        simp [stepMediator, h, MapEvent.isLoad]
  | drag => simp [stepMediator, MapEvent.isLoad]

lemma runMediator_idle_out (dr : ℚ) (es : List MapEvent) :
    ∀ (s : MediatorState) (i : ℕ), es[i]? = some MapEvent.idle →
      (((s.hasIdleTriggerd || idleSeen (es.take i)) = false →
          (runMediator dr s es)[i]? = some []) ∧
       ((s.hasIdleTriggerd || idleSeen (es.take i)) = true →
          ∃ r, (runMediator dr s es)[i]? =
            some [OutCall.regionChange r true,
                  OutCall.regionChangeComplete r true])) := by
  induction es with
  | nil => intro s i h; simp at h
  | cons e es ih =>
      intro s i h
      cases i with
      | zero =>
          have he : e = MapEvent.idle := by simpa using h
          subst he
          constructor
          · intro hfalse
            have hf : s.hasIdleTriggerd = false := by
              simpa [idleSeen] using hfalse
            simp [runMediator, stepMediator, hf]
          · intro htrue
            have hf : s.hasIdleTriggerd = true := by
              simpa [idleSeen] using htrue
            exact ⟨getCurrentRegion s.inst dr,
              by simp [runMediator, stepMediator, hf, onChangeComplete]⟩
      | succ i =>
          have h' : es[i]? = some MapEvent.idle := by simpa using h
          have key : ((stepMediator dr s e).1.hasIdleTriggerd ||
                idleSeen (es.take i))
              = (s.hasIdleTriggerd || idleSeen ((e :: es).take (i + 1))) := by
            rw [stepMediator_fst_hasIdleTriggerd]
            simp [idleSeen, Bool.or_assoc]
          have IH := ih (stepMediator dr s e).1 i h'
          constructor
          · intro hfalse
            have hx := IH.1 (by rw [key]; exact hfalse)
            simpa [runMediator] using hx
          · intro htrue
            obtain ⟨r, hr⟩ := IH.2 (by rw [key]; exact htrue)
            exact ⟨r, by simpa [runMediator] using hr⟩

lemma runMediator_zoom_out (dr : ℚ) (es : List MapEvent) :
    ∀ (s : MediatorState) (i : ℕ), es[i]? = some MapEvent.zoomChanged →
      (((s.inst.isSome || loadSeen (es.take i)) = false →
          (runMediator dr s es)[i]? = some []) ∧
       ((s.inst.isSome || loadSeen (es.take i)) = true →
          ∃ r, (runMediator dr s es)[i]? =
            some [OutCall.regionChange r true,
                  OutCall.regionChangeComplete r true])) := by
  induction es with
  | nil => intro s i h; simp at h
  | cons e es ih =>
      intro s i h
      cases i with
      | zero =>
          have he : e = MapEvent.zoomChanged := by simpa using h
          subst he
          constructor
          · intro hfalse
            have hf : s.inst.isSome = false := by
              simpa [loadSeen] using hfalse
            have hn : s.inst = none := Option.not_isSome_iff_eq_none.mp (by
              simp [hf])
            simp [runMediator, stepMediator, hn]
          · intro htrue
            have hf : s.inst.isSome = true := by
              simpa [loadSeen] using htrue
            obtain ⟨w, hw⟩ := Option.isSome_iff_exists.mp hf
            exact ⟨getCurrentRegion s.inst dr,
              by simp [runMediator, stepMediator, hw, onChangeComplete]⟩
      | succ i =>
          have h' : es[i]? = some MapEvent.zoomChanged := by simpa using h
          have key : ((stepMediator dr s e).1.inst.isSome ||
                loadSeen (es.take i))
              = (s.inst.isSome || loadSeen ((e :: es).take (i + 1))) := by
            rw [stepMediator_fst_instSome]
            simp [loadSeen, Bool.or_assoc]
          have IH := ih (stepMediator dr s e).1 i h'
          constructor
          · intro hfalse
            have hx := IH.1 (by rw [key]; exact hfalse)
            simpa [runMediator] using hx
          · intro htrue
            obtain ⟨r, hr⟩ := IH.2 (by rw [key]; exact htrue)
            exact ⟨r, by simpa [runMediator] using hr⟩

/-- C2: in every run starting with a `load` event, an `idle` event delivered
to `onIdle` with no earlier `idle` in the trace (the first idle after load)
produces zero outward `onRegionChange`/`onRegionChangeComplete` invocations,
and every `idle` event preceded by some earlier `idle` produces exactly one
`onRegionChange` invocation followed by exactly one `onRegionChangeComplete`
invocation. -/
theorem c2_idle_suppression (dr : ℚ) (w : WidgetState) (es : List MapEvent)
    (i : ℕ) (h : (MapEvent.load w :: es)[i]? = some MapEvent.idle) :
    (idleSeen ((MapEvent.load w :: es).take i) = false →
       (runMediator dr initMediator (MapEvent.load w :: es))[i]? = some []) ∧
    (idleSeen ((MapEvent.load w :: es).take i) = true →
       ∃ r, (runMediator dr initMediator (MapEvent.load w :: es))[i]? =
         some [OutCall.regionChange r true,
               OutCall.regionChangeComplete r true]) := by
  have H := runMediator_idle_out dr (MapEvent.load w :: es) initMediator i h
  constructor
  · intro hfalse
    exact H.1 (by simp [initMediator, hfalse])
  · intro htrue
    exact H.2 (by simp [initMediator, htrue])

/-- Witness for C2 on the trace `[load w0, idle, idle]`: the first idle
(index 1) yields no outward calls, the second idle (index 2) yields the
`onRegionChange`/`onRegionChangeComplete` pair. -/
theorem c2_idle_suppression_witness :
    (runMediator 1 initMediator
        [MapEvent.load w0, MapEvent.idle, MapEvent.idle])[1]? = some [] ∧
    ∃ r, (runMediator 1 initMediator
        [MapEvent.load w0, MapEvent.idle, MapEvent.idle])[2]? =
      some [OutCall.regionChange r true,
            OutCall.regionChangeComplete r true] :=
  ⟨(c2_idle_suppression 1 w0 [MapEvent.idle, MapEvent.idle] 1 rfl).1 rfl,
   (c2_idle_suppression 1 w0 [MapEvent.idle, MapEvent.idle] 2 rfl).2 rfl⟩

/-- C3: in every run from construction, a `zoomChanged` event delivered to
`onZoomChanged` before any `load` event (instance ref still null) produces
zero outward callback invocations, and every `zoomChanged` event after some
`load` produces the `onRegionChange`/`onRegionChangeComplete` pair. -/
theorem c3_zoom_before_load (dr : ℚ) (es : List MapEvent) (i : ℕ)
    (h : es[i]? = some MapEvent.zoomChanged) :
    (loadSeen (es.take i) = false →
       (runMediator dr initMediator es)[i]? = some []) ∧
    (loadSeen (es.take i) = true →
       ∃ r, (runMediator dr initMediator es)[i]? =
         some [OutCall.regionChange r true,
               OutCall.regionChangeComplete r true]) := by
  have H := runMediator_zoom_out dr es initMediator i h
  constructor
  · intro hfalse
    exact H.1 (by simp [initMediator, hfalse])
  · intro htrue
    exact H.2 (by simp [initMediator, htrue])

/-- Witness for C3 on the trace `[zoomChanged, load w0, zoomChanged]`: the
pre-load zoom change (index 0) yields no outward calls, the post-load zoom
change (index 2) yields the callback pair. -/
theorem c3_zoom_before_load_witness :
    (runMediator 1 initMediator
        [MapEvent.zoomChanged, MapEvent.load w0, MapEvent.zoomChanged])[0]? =
      some [] ∧
    ∃ r, (runMediator 1 initMediator
        [MapEvent.zoomChanged, MapEvent.load w0, MapEvent.zoomChanged])[2]? =
      some [OutCall.regionChange r true,
            OutCall.regionChangeComplete r true] :=
  ⟨(c3_zoom_before_load 1
      [MapEvent.zoomChanged, MapEvent.load w0, MapEvent.zoomChanged] 0 rfl).1
      rfl,
   (c3_zoom_before_load 1
      [MapEvent.zoomChanged, MapEvent.load w0, MapEvent.zoomChanged] 2 rfl).2
      rfl⟩

/-- C4: every settle event that is reported outward (a `zoomChanged` with the
instance recorded, or an `idle` with the first-idle flag already set) invokes
`onRegionChange` strictly before `onRegionChangeComplete`, passes the same
single `getCurrentRegion()` read to both, and marks both `{isGesture: true}`. -/
theorem c4_settle_ordering (dr : ℚ) (s : MediatorState) (e : MapEvent)
    (h : (e = MapEvent.zoomChanged ∧ s.inst.isSome = true) ∨
         (e = MapEvent.idle ∧ s.hasIdleTriggerd = true)) :
    (stepMediator dr s e).2 =
      [OutCall.regionChange (getCurrentRegion s.inst dr) true,
       OutCall.regionChangeComplete (getCurrentRegion s.inst dr) true] := by
  rcases h with ⟨he, hi⟩ | ⟨he, hf⟩
  · subst he
    obtain ⟨w, hw⟩ := Option.isSome_iff_exists.mp hi
    simp [stepMediator, hw, onChangeComplete]
  · subst he
    simp [stepMediator, hf, onChangeComplete]

/-- Witness for C4 at a recorded instance and a `zoomChanged` event. -/
theorem c4_settle_ordering_witness :
    (stepMediator 1 { inst := some w0, hasIdleTriggerd := false }
        MapEvent.zoomChanged).2 =
      [OutCall.regionChange (getCurrentRegion (some w0) 1) true,
       OutCall.regionChangeComplete (getCurrentRegion (some w0) 1) true] :=
  c4_settle_ordering 1 { inst := some w0, hasIdleTriggerd := false }
    MapEvent.zoomChanged (Or.inl ⟨rfl, rfl⟩)

/-- JS number-or-NaN: `none` stands for `NaN`. -/
abbrev JNum := Option ℚ

/-- Region whose fields may be `NaN`, as produced by the second variant's
`getCurrentRegion` before load. -/
structure RegionJ where
  latitude : JNum
  latitudeDelta : JNum
  longitude : JNum
  longitudeDelta : JNum
  deriving DecidableEq, Repr

/-- JS strict equality `x === null` for a value of type `number | undefined`
(the type `getZoom()` returns): always false, because both `undefined` and
numbers are distinct from `null` under strict equality. -/
def strictEqNull (_x : Option ℕ) : Bool := false

/-- Modelled from the spec: `zoomReverseDelta` from the missing `./utils`
module, applied at JS runtime looseness — the `zoom!` non-null assertion is
erased at runtime, so the function can receive `undefined`, and
`360 / 2 ^ undefined` evaluates to `NaN` (as does the derived latitude
delta).  Returns `(latitudeDelta, longitudeDelta)`. -/
def zoomReverseDeltaJ (zoom : Option ℕ) (deltaRadio : ℚ) : JNum × JNum :=
  match zoom with
  | none => (none, none)
  | some z =>
      (some (zoomReverseDelta z deltaRadio).latitudeDelta,
       some (zoomReverseDelta z deltaRadio).longitudeDelta)

/-- The second variant's `getCurrentRegion` (lines 543–553): identical to the
first variant's except for the strict comparison
`zoom === null ? null : zoomReverseDelta(zoom!, deltaRadio)`; before load
`getZoom()` yields `undefined`, the strict check does not catch it, and
`zoomReverseDelta` runs on `undefined`. -/
def getCurrentRegion_v2 (inst : Option WidgetState) (deltaRadio : ℚ) : RegionJ :=
  let zoom : Option ℕ := inst.map WidgetState.zoom
  let center : Option LatLng := inst.map WidgetState.center
  let delta : Option (JNum × JNum) :=
    if strictEqNull zoom then none else some (zoomReverseDeltaJ zoom deltaRadio)
  { latitude := some ((center.map LatLng.lat).getD 0),
    latitudeDelta := (delta.map Prod.fst).getD (some 0),
    longitude := some ((center.map LatLng.lng).getD 0),
    longitudeDelta := (delta.map Prod.snd).getD (some 0) }

/-- The imperative handle's `getCamera` (lines 89–102 / 295–307): reads live
center/tilt/heading/zoom through the instance ref, maps tilt to pitch,
hardcodes altitude to 0, and defaults every unavailable read to 0. -/
def getCamera (inst : Option WidgetState) : Camera :=
  let center : Option LatLng := inst.map WidgetState.center
  { center := { latitude := (center.map LatLng.lat).getD 0,
                longitude := (center.map LatLng.lng).getD 0 },
    pitch := (inst.map WidgetState.tilt).getD 0,
    altitude := 0,
    heading := (inst.map WidgetState.heading).getD 0,
    zoom := (inst.map WidgetState.zoom).getD 0 }

/-- C5 (code bug witness): before load, `getCamera()` does return the
documented zero defaults, and the first variant's `getCurrentRegion` returns
the all-zero region; but the second variant's `getCurrentRegion` (the cited
current-region read) returns `NaN` deltas — its strict `zoom === null` check
does not catch the `undefined` that `getZoom()` produces before load — so
its result is not the all-zero region. -/
theorem c5_preload_reads_bug :
    getCamera none =
      { center := { latitude := 0, longitude := 0 },
        pitch := 0, altitude := 0, heading := 0, zoom := 0 }
  ∧ getCurrentRegion none 1 =
      { latitude := 0, latitudeDelta := 0, longitude := 0, longitudeDelta := 0 }
  ∧ (getCurrentRegion_v2 none 1).latitudeDelta = none
  ∧ (getCurrentRegion_v2 none 1).longitudeDelta = none
  ∧ (getCurrentRegion_v2 none 1).latitudeDelta ≠ some 0 :=
  ⟨rfl, rfl, rfl, rfl, by simp [getCurrentRegion_v2, strictEqNull, zoomReverseDeltaJ]⟩

/-- Imperative operations issued to the underlying widget.  `moveCamera`
carries center, pitch, altitude, heading and zoom (altitude is forwarded but
ignored by the widget). -/
inductive WidgetOp where
  | moveCamera : LatLng → ℚ → ℚ → ℚ → ℕ → WidgetOp
  | panTo : LatLng → WidgetOp
  deriving DecidableEq, Repr

/-- The handle's `animateCamera` (lines 103–108 / 312–320): translate
`camera.center` to `{lat, lng}` and forward the remaining fields to
`moveCamera`; a null instance ref drops the write. -/
def animateCamera (inst : Option WidgetState) (camera : Camera) : List WidgetOp :=
  match inst with
  | none => []
  | some _ =>
      [WidgetOp.moveCamera
        { lat := camera.center.latitude, lng := camera.center.longitude }
        camera.pitch camera.altitude camera.heading camera.zoom]

/-- The handle's `setCamera` (lines 109–114 / 321–329): same body as
`animateCamera`. -/
def setCamera (inst : Option WidgetState) (camera : Camera) : List WidgetOp :=
  match inst with
  | none => []
  | some _ =>
      [WidgetOp.moveCamera
        { lat := camera.center.latitude, lng := camera.center.longitude }
        camera.pitch camera.altitude camera.heading camera.zoom]

/-- The handle's `animateToRegion` (lines 115–120 / 330–335): a single
`panTo` at the region's center; the deltas are not consulted. -/
def animateToRegion (inst : Option WidgetState) (region : Region) : List WidgetOp :=
  match inst with
  | none => []
  | some _ => [WidgetOp.panTo { lat := region.latitude, lng := region.longitude }]

/-- Effect of a widget operation on the widget's state: `panTo` changes only
the center; `moveCamera` sets center, tilt (from pitch), heading and zoom and
ignores altitude. -/
def applyOp (w : WidgetState) : WidgetOp → WidgetState
  | WidgetOp.moveCamera c pitch _altitude heading zoom =>
      { w with center := c, tilt := pitch, heading := heading, zoom := zoom }
  | WidgetOp.panTo c => { w with center := c }

/-- Effect of a sequence of widget operations. -/
def applyOps (w : WidgetState) (ops : List WidgetOp) : WidgetState :=
  List.foldl applyOp w ops

/-- C8: `animateCamera` and `setCamera` are extensionally equal: for every
camera and instance state they issue the same operations — when the widget is
present, exactly one `moveCamera` with the center translated to `{lat, lng}`
and the remaining fields forwarded unchanged — and hence have identical
effects on any widget state. -/
theorem c8_animate_set_camera_equal (inst : Option WidgetState) (camera : Camera) :
    animateCamera inst camera = setCamera inst camera
  ∧ (∀ w : WidgetState,
      animateCamera (some w) camera =
        [WidgetOp.moveCamera
          { lat := camera.center.latitude, lng := camera.center.longitude }
          camera.pitch camera.altitude camera.heading camera.zoom])
  ∧ (∀ w : WidgetState,
      applyOps w (animateCamera inst camera) = applyOps w (setCamera inst camera)) := by
  refine ⟨?_, fun w => rfl, ?_⟩
  · cases inst <;> rfl
  · intro w
    cases inst <;> rfl

/-- C9: for every region and loaded widget, `animateToRegion` issues exactly
one `panTo` at `{lat: region.latitude, lng: region.longitude}`, and applying
it changes only the center: zoom, tilt and heading are untouched (the
region's deltas are never applied). -/
theorem c9_animate_to_region_pan_only (w : WidgetState) (region : Region) :
    animateToRegion (some w) region =
      [WidgetOp.panTo { lat := region.latitude, lng := region.longitude }]
  ∧ (applyOps w (animateToRegion (some w) region)).center =
      { lat := region.latitude, lng := region.longitude }
  ∧ (applyOps w (animateToRegion (some w) region)).zoom = w.zoom
  ∧ (applyOps w (animateToRegion (some w) region)).tilt = w.tilt
  ∧ (applyOps w (animateToRegion (some w) region)).heading = w.heading :=
  ⟨rfl, rfl, rfl, rfl, rfl⟩

/-- State of the second variant's user-location machinery: the
`showsUserLocation` prop, the `mapLoaded` state, the `instance` ref (set by
`onLoad`, never cleared), the `userLocationMarker` ref as
(creation index, position), the count of `new google.maps.Marker`
constructions, whether a `watchPosition` watch is active, and the number of
outstanding (non-cancellable) `getCurrentPosition` requests. -/
structure LocState where
  shows : Bool
  mapLoaded : Bool
  instSet : Bool
  marker : Option (ℕ × LatLng)
  created : ℕ
  watch : Bool
  pending : ℕ
  deriving DecidableEq, Repr

/-- Body of the user-location effect (lines 357–420): with the feature off,
tear the marker down and acquire nothing; before the map is loaded, do
nothing; otherwise issue one `getCurrentPosition` request and start a
`watchPosition` watch. -/
def locEffectBody (s : LocState) : LocState :=
  if !s.shows then { s with marker := none }
  else if !s.mapLoaded || !s.instSet then s
  else { s with pending := s.pending + 1, watch := true }

/-- React re-run of the effect on a dependency change: the previous cleanup
(`clearWatch(watchId)`) runs, then the body.  The outstanding
`getCurrentPosition` requests are not cancellable and survive. -/
def locEffectRerun (s : LocState) : LocState :=
  locEffectBody { s with watch := false }

/-- The `updateUserLocation` fix callback (lines 372–397): with no marker and
a live instance ref, construct a new marker at the fix position; with an
existing marker, reposition it in place.  The `showsUserLocation` flag is not
consulted. -/
def updateUserLocation (p : LatLng) (s : LocState) : LocState :=
  match s.marker with
  | none =>
      if s.instSet then
        { s with marker := some (s.created, p), created := s.created + 1 }
      else s
  | some m => { s with marker := some (m.1, p) }

/-- Events driving the user-location machinery. -/
inductive LocEvent where
  | load : LocEvent
  | setShows : Bool → LocEvent
  | fixWatch : LatLng → LocEvent
  | fixOneShot : LatLng → LocEvent
  | unmount : LocEvent
  deriving DecidableEq, Repr

/-- One step of the user-location machinery: `load` records the instance and
`mapLoaded` and re-runs the effect; a `showsUserLocation` prop change re-runs
the effect; a watch fix fires only while the watch is active; a one-shot fix
fires whenever a request is still outstanding (late delivery allowed);
unmount runs the cleanup effects (marker removed, watch cleared). -/
def stepLoc (s : LocState) : LocEvent → LocState
  | LocEvent.load => locEffectRerun { s with mapLoaded := true, instSet := true }
  | LocEvent.setShows b => locEffectRerun { s with shows := b }
  | LocEvent.fixWatch p => if s.watch then updateUserLocation p s else s
  | LocEvent.fixOneShot p =>
      if 0 < s.pending then updateUserLocation p { s with pending := s.pending - 1 }
      else s
  | LocEvent.unmount => { s with marker := none, watch := false }

/-- State after mount with the given `showsUserLocation` prop: all refs empty,
then the effect body runs once. -/
def initLoc (shows : Bool) : LocState :=
  locEffectBody
    { shows := shows, mapLoaded := false, instSet := false, marker := none,
      created := 0, watch := false, pending := 0 }

/-- Run of the user-location machinery over an event trace. -/
def runLoc (s : LocState) : List LocEvent → LocState
  | [] => s
  | e :: es => runLoc (stepLoc s e) es

/-- C7 (code bug witness): on the happy path (`load` then two watch fixes)
exactly one marker is created and the second fix repositions that same marker
object (same creation index, no new construction).  But after
`load` — which issues a non-cancellable `getCurrentPosition` request — and a
`setShows false` disable (watch cleared, marker removed), a late one-shot fix
re-creates the marker while the feature is disabled: `updateUserLocation`
checks only the marker ref and the instance ref, never the feature flag. -/
theorem c7_late_fix_bug :
    (runLoc (initLoc true)
        [LocEvent.load, LocEvent.fixWatch { lat := 1, lng := 2 },
         LocEvent.fixWatch { lat := 3, lng := 4 }]).created = 1
  ∧ (runLoc (initLoc true)
        [LocEvent.load, LocEvent.fixWatch { lat := 1, lng := 2 },
         LocEvent.fixWatch { lat := 3, lng := 4 }]).marker =
      some (0, { lat := 3, lng := 4 })
  ∧ (runLoc (initLoc true)
        [LocEvent.load, LocEvent.setShows false]).marker = none
  ∧ (runLoc (initLoc true)
        [LocEvent.load, LocEvent.setShows false]).watch = false
  ∧ (runLoc (initLoc true)
        [LocEvent.load, LocEvent.setShows false,
         LocEvent.fixOneShot { lat := 1, lng := 2 }]).shows = false
  ∧ (runLoc (initLoc true)
        [LocEvent.load, LocEvent.setShows false,
         LocEvent.fixOneShot { lat := 1, lng := 2 }]).marker =
      some (0, { lat := 1, lng := 2 }) :=
  ⟨rfl, rfl, rfl, rfl, rfl, rfl⟩

/-- Keys of the widget options object. -/
inductive OptKey where
  | gestureHandling
  | zoomControl
  | disableDoubleClickZoom
  | mapTypeId
  | styles
  | minZoom
  | maxZoom
  | disableDefaultUI
  | clickableIcons
  deriving DecidableEq, Repr

/-- Values of the widget options object (string identifiers are named
constructors; `undef` is JS `undefined`; `styleRef` stands for an opaque
`customMapStyle` descriptor; `num` for a numeric option). -/
inductive OptVal where
  | boolean : Bool → OptVal
  | auto : OptVal
  | noneGesture : OptVal
  | roadmap : OptVal
  | satellite : OptVal
  | hybrid : OptVal
  | terrain : OptVal
  | num : ℕ → OptVal
  | styleRef : ℕ → OptVal
  | undef : OptVal
  deriving DecidableEq, Repr

/-- A JS object holding widget options, as an insertion-ordered key-value
list. -/
abbrev Opts := List (OptKey × OptVal)

/-- Assignment of one property on a JS object: overwrite the existing key in
place or append it. -/
def setKey (o : Opts) (k : OptKey) (v : OptVal) : Opts :=
  match o with
  | [] => [(k, v)]
  | kv :: rest => if kv.1 = k then (k, v) :: rest else kv :: setKey rest k v

/-- Assignment of every property of `src` onto `target`, in order
(the semantics shared by object spread into a literal and by
`Object.assign`). -/
def assignPairs (target : Opts) (src : Opts) : Opts :=
  List.foldl (fun acc kv => setKey acc kv.1 kv.2) target src

/-- Property read on a JS object. -/
def getKey (o : Opts) (k : OptKey) : Option OptVal :=
  (o.find? (fun kv => decide (kv.1 = k))).map Prod.snd

/-- The mobile `mapType` enum. -/
inductive MapType where
  | standard
  | satellite
  | hybrid
  | terrain
  deriving DecidableEq, Repr

/-- Modelled from the spec: `MAP_TYPE_MAPS` lives in the missing `./config`
module and maps the mobile `mapType` enum to the widget's type
identifiers. -/
def MAP_TYPE_MAPS : MapType → OptVal
  | MapType.standard => OptVal.roadmap
  | MapType.satellite => OptVal.satellite
  | MapType.hybrid => OptVal.hybrid
  | MapType.terrain => OptVal.terrain

/-- Props feeding the options memo, plus the caller-supplied free-form
`options` object merged last. -/
structure OptionProps where
  zoomEnabled : Bool
  zoomControlEnabled : Bool
  zoomTapEnabled : Bool
  mapType : MapType
  customMapStyle : OptVal
  minZoom : OptVal
  maxZoom : OptVal
  provideOptions : Opts
  deriving DecidableEq, Repr

/-- The seven option properties computed from props, in source order. -/
def computedPairs (p : OptionProps) : Opts :=
  [(OptKey.gestureHandling, if p.zoomEnabled then OptVal.auto else OptVal.noneGesture),
   (OptKey.zoomControl, OptVal.boolean p.zoomControlEnabled),
   (OptKey.disableDoubleClickZoom, OptVal.boolean (!p.zoomTapEnabled)),
   (OptKey.mapTypeId, MAP_TYPE_MAPS p.mapType),
   (OptKey.styles, p.customMapStyle),
   (OptKey.minZoom, p.minZoom),
   (OptKey.maxZoom, p.maxZoom)]

/-- The first variant's options memo (lines 40–51):
`{...DEFAULT_OPTIONS, gestureHandling: ..., ..., ...provideOptions}` — an
object spread into a fresh literal; the `DEFAULT_OPTIONS` binding is read but
never written.  Returns (computed options, value of the `DEFAULT_OPTIONS`
binding after the computation). -/
def options_v1 (DEFAULT_OPTIONS : Opts) (p : OptionProps) : Opts × Opts :=
  (assignPairs (assignPairs DEFAULT_OPTIONS (computedPairs p)) p.provideOptions,
   DEFAULT_OPTIONS)

/-- The second variant's options memo (lines 271–281):
`Object.assign(DEFAULT_OPTIONS, {...}, provideOptions)` — `Object.assign`
mutates and returns its first argument, so the computed options object *is*
the `DEFAULT_OPTIONS` object.  Returns (computed options, value of the
`DEFAULT_OPTIONS` binding after the computation). -/
def options_v2 (DEFAULT_OPTIONS : Opts) (p : OptionProps) : Opts × Opts :=
  let merged :=
    assignPairs (assignPairs DEFAULT_OPTIONS (computedPairs p)) p.provideOptions
  (merged, merged)

/-- Modelled from the spec: `DEFAULT_OPTIONS` lives in the missing `./config`
module; its exact content is immaterial to the mutation behavior under test,
so a representative value is used. -/
def DEFAULT_OPTIONS0 : Opts := [(OptKey.disableDefaultUI, OptVal.boolean true)]

/-- Props for the first options computation: caller-supplied `options`
carrying one extra key. -/
def optionProps1 : OptionProps :=
  { zoomEnabled := true, zoomControlEnabled := true, zoomTapEnabled := true,
    mapType := MapType.standard, customMapStyle := OptVal.undef,
    minZoom := OptVal.undef, maxZoom := OptVal.undef,
    provideOptions := [(OptKey.clickableIcons, OptVal.boolean false)] }

/-- Props for the second options computation: no caller-supplied `options`. -/
def optionProps2 : OptionProps := { optionProps1 with provideOptions := [] }

/-- C10 (code bug witness): the first variant's spread leaves the
`DEFAULT_OPTIONS` binding unchanged, and a computation with no
caller-supplied `options` yields no `clickableIcons` key.  The second
variant's `Object.assign` writes the computed options into `DEFAULT_OPTIONS`
itself, so after one computation with `{clickableIcons: false}` the shared
defaults are changed and a second computation with different props (no
caller options) still starts from the polluted defaults and reports
`clickableIcons`. -/
theorem c10_default_options_mutation_bug :
    (options_v1 DEFAULT_OPTIONS0 optionProps1).2 = DEFAULT_OPTIONS0
  ∧ getKey (options_v1 DEFAULT_OPTIONS0 optionProps2).1 OptKey.clickableIcons
      = none
  ∧ (options_v2 DEFAULT_OPTIONS0 optionProps1).2 ≠ DEFAULT_OPTIONS0
  ∧ getKey
      (options_v2 (options_v2 DEFAULT_OPTIONS0 optionProps1).2 optionProps2).1
      OptKey.clickableIcons
      = some (OptVal.boolean false) := by
  refine ⟨rfl, rfl, ?_, rfl⟩
  intro h
  exact absurd (congrArg List.length h) (by decide)

end MapsAdapter
